import Mathlib

/-!
# Verification of the opencode-autopilot smoke-test scripts

This file gives a shallow embedding of the two browser smoke-test scripts
`verify_dashboard.py` and `verify_collaborative.py` and proves properties of
their control flow, artifact production and session handling.

Each script is a linear sequence of driver calls (navigate, wait-for-selector,
click, sleep, screenshot, visibility probe) executed against one page session,
wrapped in `try ... except ... finally browser.close()`.  The behaviour of the
external driver in a particular run is captured by an oracle (`Env`): for every
fallible driver call, whether it succeeds or raises (and with which message),
and for every visibility probe, which boolean it reports.  The interpreter
(`runBody`, `runFinish`, `runW`) is a direct transcription of the Python
control flow: the body runs step by step, stopping at the first raised
exception; the handler prints the error and attempts one diagnostic
screenshot; the `finally` block closes the browser; exceptions raised by the
handler or by `close` replace the pending one, mirroring Python semantics.
The launch of the browser and the creation of the page happen before the
`try`, so a failure there skips handler and `finally` entirely.
-/

namespace Autopilot

/-- An exception value.  The first component identifies the driver call that
raised it (its position in the sequence of fallible driver calls of the run),
the second is its message; the index models object identity of Python
exceptions, which carry no such tag themselves. -/
abbrev Exn := Nat × String

/-- The outcome oracle of one run.  `act n` is the outcome of the `n`-th
fallible driver call of the run (`none` = the call returns normally,
`some msg` = the call raises with message `msg`).  `probe n` is the boolean
reported by the `n`-th non-blocking visibility probe. -/
structure Env where
  act : Nat → Option String
  probe : Nat → Bool

/-- The observable events of a run: console output, driver calls with their
success flag, visibility probes with their reported boolean, and the closing
of the browser session. -/
inductive Ev
| launch (ok : Bool)
| newPage (ok : Bool)
| print (s : String)
| goto (url : String) (ok : Bool)
| waitFor (sel : String) (ok : Bool)
| sleepTenths (n : Nat)
| screenshot (path : String) (ok : Bool)
| click (sel : String) (ok : Bool)
| probe (sel : String) (res : Bool)
| probeText (txt : String) (res : Bool)
| closeBrowser (ok : Bool)
deriving DecidableEq, Repr

/-- The instructions occurring in the `try` body of a script, one per Python
statement.  `iprobeSel sel t f` is `if page.is_visible(sel): print(t) else:
print(f)`; `iprobeText txt t` is `if page.get_by_text(txt).is_visible():
print(t)` (no else branch). -/
inductive Instr
| iprint (s : String)
| igoto (url : String)
| iwait (sel : String)
| isleep (tenths : Nat)
| ishot (path : String)
| iclick (sel : String)
| iprobeSel (sel : String) (onTrue onFalse : String)
| iprobeText (txt : String) (onTrue : String)
deriving DecidableEq, Repr

/-- Interpreter state: how many fallible driver calls and how many probes have
been consumed, and the event trace so far. -/
structure St where
  acts : Nat
  probes : Nat
  tr : List Ev
deriving DecidableEq, Repr

/-- The final observable outcome of a run: its event trace and the exception
(if any) propagating out of `run()`. -/
structure RunResult where
  tr : List Ev
  exn : Option Exn
deriving DecidableEq, Repr

/-- Run the `try` body: execute instructions in order, stopping at the first
driver call that raises.  Returns the final state and the raised exception,
if any. -/
def runBody (env : Env) : List Instr → St → St × Option Exn
| [], s => (s, none)
| .iprint m :: rest, s => runBody env rest { s with tr := s.tr ++ [.print m] }
| .igoto u :: rest, s =>
    match env.act s.acts with
    | none => runBody env rest
        { s with acts := s.acts + 1, tr := s.tr ++ [.goto u true] }
    | some msg =>
        ({ s with acts := s.acts + 1, tr := s.tr ++ [.goto u false] },
         some (s.acts, msg))
| .iwait sel :: rest, s =>
    match env.act s.acts with
    | none => runBody env rest
        { s with acts := s.acts + 1, tr := s.tr ++ [.waitFor sel true] }
    | some msg =>
        ({ s with acts := s.acts + 1, tr := s.tr ++ [.waitFor sel false] },
         some (s.acts, msg))
| .isleep n :: rest, s => runBody env rest { s with tr := s.tr ++ [.sleepTenths n] }
| .ishot p :: rest, s =>
    match env.act s.acts with
    | none => runBody env rest
        { s with acts := s.acts + 1, tr := s.tr ++ [.screenshot p true] }
    | some msg =>
        ({ s with acts := s.acts + 1, tr := s.tr ++ [.screenshot p false] },
         some (s.acts, msg))
| .iclick sel :: rest, s =>
    match env.act s.acts with
    | none => runBody env rest
        { s with acts := s.acts + 1, tr := s.tr ++ [.click sel true] }
    | some msg =>
        ({ s with acts := s.acts + 1, tr := s.tr ++ [.click sel false] },
         some (s.acts, msg))
| .iprobeSel sel t f :: rest, s =>
    runBody env rest
      { s with probes := s.probes + 1,
               tr := s.tr ++ [.probe sel (env.probe s.probes),
                 .print (if env.probe s.probes then t else f)] }
| .iprobeText txt t :: rest, s =>
    runBody env rest
      { s with probes := s.probes + 1,
               tr := s.tr ++ ([Ev.probeText txt (env.probe s.probes)] ++
                 (if env.probe s.probes then [Ev.print t] else [])) }

/-- The interpreter state right after `browser = p.chromium.launch()` and
`page = browser.new_page()` both succeeded: these are the fallible driver
calls number `0` and `1`, so the body starts at call number `2`. -/
def init0 : St := { acts := 2, probes := 0, tr := [Ev.launch true, Ev.newPage true] }

/-- The `except`/`finally` part of the script, applied to the outcome of the
`try` body.  On success only the `finally` (`browser.close()`) runs; on
failure the handler prints `Error: <msg>` and attempts the diagnostic
screenshot `errShot`, and then the `finally` runs.  Following Python
semantics, an exception raised by the diagnostic screenshot replaces the
caught one, and an exception raised by `close` in the `finally` replaces
whatever was pending. -/
def runFinish (errShot : String) (env : Env) : St × Option Exn → RunResult
| (s1, none) =>
    match env.act s1.acts with
    | none => { tr := s1.tr ++ [Ev.closeBrowser true], exn := none }
    | some m => { tr := s1.tr ++ [Ev.closeBrowser false], exn := some (s1.acts, m) }
| (s1, some (_i, msg)) =>
    match env.act s1.acts with
    | none =>
        match env.act (s1.acts + 1) with
        | none =>
            { tr := s1.tr ++ [Ev.print ("Error: " ++ msg),
                Ev.screenshot errShot true, Ev.closeBrowser true],
              exn := none }
        | some m3 =>
            { tr := s1.tr ++ [Ev.print ("Error: " ++ msg),
                Ev.screenshot errShot true, Ev.closeBrowser false],
              exn := some (s1.acts + 1, m3) }
    | some m2 =>
        match env.act (s1.acts + 1) with
        | none =>
            { tr := s1.tr ++ [Ev.print ("Error: " ++ msg),
                Ev.screenshot errShot false, Ev.closeBrowser true],
              exn := some (s1.acts, m2) }
        | some m3 =>
            { tr := s1.tr ++ [Ev.print ("Error: " ++ msg),
                Ev.screenshot errShot false, Ev.closeBrowser false],
              exn := some (s1.acts + 1, m3) }

/-- The whole `run()` function of a script: launch the browser (call `0`),
create the page (call `1`) — both before the `try`, so a failure there
propagates directly, skipping handler and `finally` — then run the body and
finish. -/
def runW (body : List Instr) (errShot : String) (env : Env) : RunResult :=
  match env.act 0 with
  | some m => { tr := [Ev.launch false], exn := some (0, m) }
  | none =>
    match env.act 1 with
    | some m => { tr := [Ev.launch true, Ev.newPage false], exn := some (1, m) }
    | none => runFinish errShot env (runBody env body init0)

/-- The two scripts of the repository. -/
inductive Script
| dashboard
| collaborative
deriving DecidableEq, Repr

/-- The `try` body of `verify_dashboard.py`, one instruction per statement. -/
def dashBody : List Instr := [
  .iprint "Navigating to Dashboard...",
  .igoto "http://localhost:3847/dashboard",
  .iwait ".app",
  .isleep 20,
  .ishot "dashboard_debug.png",
  .iprint "Debug screenshot saved.",
  .iprobeSel ".sessions-grid" "Sessions grid is visible." "Sessions grid is NOT visible.",
  .iprobeText "No sessions active" "Empty state text found.",
  .ishot "dashboard_tab.png",
  .iprint "Dashboard tab screenshot saved.",
  .iprint "Navigating to Debate History...",
  .iclick ".tab:text(\x27Debate History\x27)",
  .isleep 10,
  .ishot "debate_history_tab.png",
  .iprint "Debate History tab screenshot saved.",
  .iprint "Navigating to Supervisors...",
  .iclick ".tab:text(\x27Supervisors\x27)",
  .isleep 10,
  .ishot "supervisors_tab.png",
  .iprint "Supervisors tab screenshot saved.",
  .iprint "Opening Settings Modal...",
  .iclick "button:has-text(\x27Settings\x27)",
  .isleep 10,
  .ishot "settings_modal.png",
  .iprint "Settings modal screenshot saved.",
  .iclick ".modal-close",
  .iprint "Opening Help Modal...",
  .iclick "button:has-text(\x27Help\x27)",
  .isleep 10,
  .ishot "help_modal.png",
  .iprint "Help modal screenshot saved.",
  .iclick ".modal-close"]

/-- The `try` body of `verify_collaborative.py`, one instruction per
statement. -/
def collabBody : List Instr := [
  .iprint "Navigating to Dashboard...",
  .igoto "http://localhost:3847/dashboard",
  .iwait ".app",
  .iprint "Navigating to Collaborative Debates...",
  .iclick ".tab:text(\x27Collaborative\x27)",
  .iwait "#collaborative-debates-table",
  .isleep 10,
  .ishot "collaborative_tab.png",
  .iprint "Collaborative tab screenshot saved.",
  .iprint "Opening Create Debate Modal...",
  .iclick "button:has-text(\x27Create Debate\x27)",
  .iwait "#create-debate-modal.show",
  .isleep 5,
  .ishot "create_debate_modal.png",
  .iprint "Create debate modal screenshot saved.",
  .iclick ".modal-close",
  .iprint "Navigating to Simulator...",
  .iclick ".tab:text(\x27Simulator\x27)",
  .iwait "#simulations-table",
  .isleep 10,
  .ishot "simulator_tab.png",
  .iprint "Simulator tab screenshot saved."]

/-- The `try` body of a script. -/
def Script.body : Script → List Instr
| .dashboard => dashBody
| .collaborative => collabBody

/-- The diagnostic screenshot path of a script. -/
def Script.errShot : Script → String
| .dashboard => "error_state.png"
| .collaborative => "error_state_collab.png"

/-- One full run of a script under an outcome oracle. -/
def run (sc : Script) (env : Env) : RunResult := runW sc.body sc.errShot env

/-- The screenshot file a single event writes, if any: a `screenshot` call
that succeeded. -/
def shotOfEv : Ev → Option String
| .screenshot p true => some p
| _ => none

/-- The screenshot files written during a trace, in order. -/
def producedShots (tr : List Ev) : List String := tr.filterMap shotOfEv

/-- Whether an event is an invocation of `browser.close()`. -/
def isClose : Ev → Bool
| .closeBrowser _ => true
| _ => false

/-- How many times `browser.close()` was invoked in a trace. -/
def closedCount (tr : List Ev) : Nat := (tr.filter isClose).length

/-- Whether an event is a driver step (navigation, wait, click, screenshot or
close), as opposed to console output, a sleep or a visibility probe. -/
def isStep : Ev → Bool
| .goto _ _ => true
| .waitFor _ _ => true
| .click _ _ => true
| .screenshot _ _ => true
| .closeBrowser _ => true
| _ => false

/-- The subsequence of driver steps of a trace. -/
def stepsOf (tr : List Ev) : List Ev := tr.filter isStep

/-- The screenshot paths named by a list of instructions, in order. -/
def shotsOf (l : List Instr) : List String :=
  l.filterMap fun i => match i with
    | .ishot p => some p
    | _ => none

/-- Whether an instruction is a fallible driver call. -/
def fallible : Instr → Bool
| .igoto _ => true
| .iwait _ => true
| .ishot _ => true
| .iclick _ => true
| _ => false

/-- How many fallible driver calls a list of instructions contains. -/
def countFallible (l : List Instr) : Nat := (l.filter fallible).length

/-- The enumerated screenshot set a fully successful run of each script is
expected to write, in step order. -/
def expectedShots : Script → List String
| .dashboard =>
    ["dashboard_debug.png", "dashboard_tab.png", "debate_history_tab.png",
     "supervisors_tab.png", "settings_modal.png", "help_modal.png"]
| .collaborative =>
    ["collaborative_tab.png", "create_debate_modal.png", "simulator_tab.png"]

/-- Whether an instruction is a screenshot. -/
def isShotI : Instr → Bool
| .ishot _ => true
| _ => false

/-- Whether an instruction is a selector wait. -/
def isWaitI : Instr → Bool
| .iwait _ => true
| _ => false

/-- Whether an instruction is a fixed sleep. -/
def isSleepI : Instr → Bool
| .isleep _ => true
| _ => false

/-- Whether an instruction is a UI interaction (a navigation or a click). -/
def isInteraction : Instr → Bool
| .igoto _ => true
| .iclick _ => true
| _ => false

/-- Every UI interaction of the instruction list is followed by both a
selector wait and a fixed sleep before the next screenshot (if there is a
later screenshot at all). -/
def gatedBoth : List Instr → Bool
| [] => true
| i :: rest =>
    ((!(isInteraction i && rest.any isShotI)) ||
      ((rest.takeWhile (fun j => !(isShotI j))).any isWaitI &&
       (rest.takeWhile (fun j => !(isShotI j))).any isSleepI)) &&
    gatedBoth rest

/-- Every UI interaction of the instruction list is followed by at least a
fixed sleep before the next screenshot (if there is a later screenshot). -/
def gatedSleep : List Instr → Bool
| [] => true
| i :: rest =>
    ((!(isInteraction i && rest.any isShotI)) ||
      (rest.takeWhile (fun j => !(isShotI j))).any isSleepI) &&
    gatedSleep rest

lemma producedShots_append (a b : List Ev) :
    producedShots (a ++ b) = producedShots a ++ producedShots b := by
  simp [producedShots]

lemma closedCount_append (a b : List Ev) :
    closedCount (a ++ b) = closedCount a + closedCount b := by
  simp [closedCount, List.filter_append]

lemma stepsOf_append (a b : List Ev) :
    stepsOf (a ++ b) = stepsOf a ++ stepsOf b := by
  simp [stepsOf, List.filter_append]

lemma stepsOf_nil : stepsOf [] = [] := rfl

lemma stepsOf_cons (e : Ev) (tr : List Ev) :
    stepsOf (e :: tr) = if isStep e then e :: stepsOf tr else stepsOf tr := by
  simp [stepsOf, List.filter_cons]

/-- When the `try` body raises, the raised exception is tagged with the
number of the driver call that raised it: that number is at least the first
call number of the body, the final call counter stands right after it, and
the oracle indeed assigns it that message. -/
lemma runBody_fail_acts :
    ∀ (l : List Instr) (env : Env) (s s' : St) (i : Nat) (m : String),
      runBody env l s = (s', some (i, m)) →
      s.acts ≤ i ∧ s'.acts = i + 1 ∧ env.act i = some m := by
  intro l env
  induction l with
  | nil => intro s s' i m h; simp [runBody] at h
  | cons instr rest ih =>
    intro s s' i m h
    cases instr <;> simp only [runBody] at h
    case iprint t =>
      have hh := ih _ _ _ _ h
      exact ⟨hh.1, hh.2⟩
    case isleep n =>
      have hh := ih _ _ _ _ h
      exact ⟨hh.1, hh.2⟩
    case iprobeSel a b c =>
      have hh := ih _ _ _ _ h
      exact ⟨hh.1, hh.2⟩
    case iprobeText a b =>
      have hh := ih _ _ _ _ h
      exact ⟨hh.1, hh.2⟩
    all_goals
      rcases hact : env.act s.acts with _ | msg <;> rw [hact] at h
    all_goals
      first
      | (have hh := ih _ _ _ _ h
         exact ⟨Nat.le_of_succ_le hh.1, hh.2⟩)
      | (simp only [Prod.mk.injEq, Option.some.injEq] at h
         obtain ⟨hs, hi, hm⟩ := h
         subst hi; subst hm
         refine ⟨le_refl _, ?_, hact⟩
         rw [← hs])

/-- When the `try` body raises, there is a position `k` in the instruction
list such that the instructions strictly before `k` ran to completion, the
instruction at `k` is the fallible driver call that raised, the screenshots
written are exactly those named before `k`, and the exception is tagged with
the number of fallible calls before it. -/
lemma runBody_fail_take :
    ∀ (l : List Instr) (env : Env) (s s' : St) (i : Nat) (m : String),
      runBody env l s = (s', some (i, m)) →
      ∃ k, k < l.length ∧
        fallible (l.getD k (Instr.iprint "")) = true ∧
        producedShots s'.tr = producedShots s.tr ++ shotsOf (l.take k) ∧
        i = s.acts + countFallible (l.take k) := by
  intro l env
  induction l with
  | nil => intro s s' i m h; simp [runBody] at h
  | cons instr rest ih =>
    intro s s' i m h
    cases instr <;> simp only [runBody] at h
    all_goals
      try (rcases hb : env.probe s.probes <;> simp only [hb] at h)
    all_goals
      try (rcases hact : env.act s.acts with _ | msg <;> rw [hact] at h)
    all_goals
      first
      | (obtain ⟨k, hk, hf, hp, hi⟩ := ih _ _ _ _ h
         refine ⟨k + 1, by simp only [List.length_cons]; omega,
           by simpa using hf, ?_, ?_⟩
         · rw [hp]
           simp [producedShots_append, producedShots, shotOfEv, shotsOf,
             List.take_succ_cons]
         · rw [hi]
           simp only [List.take_succ_cons, countFallible, fallible, List.filter,
             List.length_cons]
           try omega)
      | (simp only [Prod.mk.injEq, Option.some.injEq] at h
         obtain ⟨hs, hi, hm⟩ := h
         refine ⟨0, by simp, by simp [fallible], ?_,
           by simpa [countFallible, shotsOf] using hi.symm⟩
         rw [← hs]
         simp [producedShots_append, producedShots, shotOfEv, shotsOf])

/-- When the `try` body runs to completion, the screenshots written are
exactly those named by the instruction list, in order, and every fallible
driver call was consumed. -/
lemma runBody_success_shots :
    ∀ (l : List Instr) (env : Env) (s s' : St),
      runBody env l s = (s', none) →
      producedShots s'.tr = producedShots s.tr ++ shotsOf l ∧
      s'.acts = s.acts + countFallible l := by
  intro l env
  induction l with
  | nil =>
    intro s s' h
    simp only [runBody, Prod.mk.injEq] at h
    rw [← h.1]
    simp [shotsOf, countFallible]
  | cons instr rest ih =>
    intro s s' h
    cases instr <;> simp only [runBody] at h
    all_goals
      try (rcases hb : env.probe s.probes <;> simp only [hb] at h)
    all_goals
      try (rcases hact : env.act s.acts with _ | msg <;> rw [hact] at h)
    all_goals
      try (simp only [Prod.mk.injEq] at h; exact absurd h.2 (by simp))
    all_goals
      obtain ⟨hp, ha⟩ := ih _ _ h
    all_goals
      constructor
    all_goals
      first
      | (rw [hp]
         simp [producedShots_append, producedShots, shotOfEv, shotsOf])
      | (rw [ha]
         simp only [countFallible, fallible, List.filter, List.length_cons]
         try omega)

/-- The `try` body never invokes `browser.close()`. -/
lemma runBody_closed :
    ∀ (l : List Instr) (env : Env) (s : St),
      closedCount ((runBody env l s).1).tr = closedCount s.tr := by
  intro l env
  induction l with
  | nil => intro s; simp [runBody]
  | cons instr rest ih =>
    intro s
    cases instr <;> simp only [runBody]
    all_goals
      try split
    all_goals
      first
      | (rw [ih]; simp [closedCount_append, closedCount, isClose])
      | simp [closedCount_append, closedCount, isClose]

/-- Running the `try` body only appends events to the trace. -/
lemma runBody_tr_ext :
    ∀ (l : List Instr) (env : Env) (s : St),
      ∃ t, ((runBody env l s).1).tr = s.tr ++ t := by
  intro l env
  induction l with
  | nil => intro s; exact ⟨[], by simp [runBody]⟩
  | cons instr rest ih =>
    intro s
    cases instr <;> simp only [runBody]
    all_goals
      try split
    all_goals
      first
      | (obtain ⟨t, ht⟩ := ih _
         exact ⟨_, by rw [ht]; exact List.append_assoc _ _ _⟩)
      | exact ⟨_, rfl⟩

/-- Running a concatenated body runs the first part, and the second only when
the first did not raise. -/
lemma runBody_append :
    ∀ (l1 l2 : List Instr) (env : Env) (s : St),
      runBody env (l1 ++ l2) s =
        match runBody env l1 s with
        | (s1, none) => runBody env l2 s1
        | (s1, some e) => (s1, some e) := by
  intro l1 l2 env
  induction l1 with
  | nil => intro s; simp [runBody]
  | cons instr rest ih =>
    intro s
    cases instr <;> simp only [List.cons_append, runBody]
    all_goals
      try (exact ih _)
    all_goals
      split
    all_goals
      first
      | exact ih _
      | rfl

/-- Two runs of the same body whose oracles assign the same outcomes to
driver calls (but may answer probes differently) perform the same driver
steps, consume the same number of driver calls, and raise the same
exception. -/
lemma runBody_steps_congr :
    ∀ (l : List Instr) (env1 env2 : Env) (s s' : St),
      env1.act = env2.act → s.acts = s'.acts → stepsOf s.tr = stepsOf s'.tr →
      stepsOf ((runBody env1 l s).1).tr = stepsOf ((runBody env2 l s').1).tr ∧
      ((runBody env1 l s).1).acts = ((runBody env2 l s').1).acts ∧
      (runBody env1 l s).2 = (runBody env2 l s').2 := by
  intro l env1 env2
  induction l with
  | nil => intro s s' hA ha ht; simpa [runBody] using ⟨ht, ha⟩
  | cons instr rest ih =>
    intro s s' hA ha ht
    have hAct : ∀ n, env1.act n = env2.act n := fun n => congrFun hA n
    cases instr <;> simp only [runBody]
    case iprint t =>
      exact ih _ _ hA ha (by simp [stepsOf_append, stepsOf_cons, stepsOf_nil, isStep, ht])
    case isleep n =>
      exact ih _ _ hA ha (by simp [stepsOf_append, stepsOf_cons, stepsOf_nil, isStep, ht])
    case iprobeSel a b c =>
      exact ih _ _ hA ha (by simp [stepsOf_append, stepsOf_cons, stepsOf_nil, isStep, ht])
    case iprobeText a b =>
      refine ih _ _ hA ha ?_
      rcases env1.probe s.probes <;> rcases env2.probe s'.probes <;>
        simp [stepsOf_append, stepsOf_cons, stepsOf_nil, isStep, ht]
    all_goals
      rw [ha] at *
      rcases hact : env2.act s'.acts with _ | msg <;>
        rw [show env1.act s'.acts = env2.act s'.acts from hAct _, hact]
    all_goals
      first
      | (refine ih _ _ hA (by simp) ?_
         simp [stepsOf_append, stepsOf_cons, stepsOf_nil, isStep, ht])
      | (refine ⟨?_, by simp, rfl⟩
         simp [stepsOf_append, stepsOf_cons, stepsOf_nil, isStep, ht])

/-- The handler/`finally` part appends its events to the body trace. -/
lemma runFinish_tr_ext (e : String) (env : Env) (p : St × Option Exn) :
    ∃ u, (runFinish e env p).tr = p.1.tr ++ u := by
  rcases p with ⟨s1, _ | ⟨i, msg⟩⟩
  · rcases h1 : env.act s1.acts with _ | m2
    · exact ⟨[Ev.closeBrowser true], by simp [runFinish, h1]⟩
    · exact ⟨[Ev.closeBrowser false], by simp [runFinish, h1]⟩
  · rcases h1 : env.act s1.acts with _ | m2 <;>
      rcases h2 : env.act (s1.acts + 1) with _ | m3
    · exact ⟨[Ev.print ("Error: " ++ msg), Ev.screenshot e true,
        Ev.closeBrowser true], by simp [runFinish, h1, h2]⟩
    · exact ⟨[Ev.print ("Error: " ++ msg), Ev.screenshot e true,
        Ev.closeBrowser false], by simp [runFinish, h1, h2]⟩
    · exact ⟨[Ev.print ("Error: " ++ msg), Ev.screenshot e false,
        Ev.closeBrowser true], by simp [runFinish, h1, h2]⟩
    · exact ⟨[Ev.print ("Error: " ++ msg), Ev.screenshot e false,
        Ev.closeBrowser false], by simp [runFinish, h1, h2]⟩

/-- The handler/`finally` part invokes `browser.close()` exactly once. -/
lemma runFinish_closed (e : String) (env : Env) (p : St × Option Exn) :
    closedCount (runFinish e env p).tr = closedCount p.1.tr + 1 := by
  rcases p with ⟨s1, _ | ⟨i, msg⟩⟩
  · rcases h1 : env.act s1.acts with _ | m2 <;>
      simp [runFinish, h1, closedCount_append, closedCount, isClose]
  · rcases h1 : env.act s1.acts with _ | m2 <;>
      rcases h2 : env.act (s1.acts + 1) with _ | m3 <;>
        simp [runFinish, h1, h2, closedCount_append, closedCount, isClose]

/-- After a successful body, the handler/`finally` part writes no
screenshot. -/
lemma runFinish_produced_ok (e : String) (env : Env) (s1 : St) :
    producedShots (runFinish e env (s1, none)).tr = producedShots s1.tr := by
  rcases h1 : env.act s1.acts with _ | m2 <;>
    simp [runFinish, h1, producedShots_append, producedShots, shotOfEv]

/-- After a failing body, the handler writes the diagnostic screenshot
exactly when that screenshot call itself succeeds. -/
lemma runFinish_produced_fail (e : String) (env : Env) (s1 : St) (i : Nat)
    (m : String) :
    producedShots (runFinish e env (s1, some (i, m))).tr =
      producedShots s1.tr ++
        (if (env.act s1.acts).isNone then [e] else []) := by
  rcases h1 : env.act s1.acts with _ | m2 <;>
    rcases h2 : env.act (s1.acts + 1) with _ | m3 <;>
      simp [runFinish, h1, h2, producedShots_append, producedShots, shotOfEv]

/-- After a failing body the trace ends with the error line, the attempted
diagnostic screenshot and the attempted close, in that order. -/
lemma runFinish_tr_fail (e : String) (env : Env) (s1 : St) (i : Nat)
    (m : String) :
    (runFinish e env (s1, some (i, m))).tr =
      s1.tr ++ [Ev.print ("Error: " ++ m),
        Ev.screenshot e ((env.act s1.acts).isNone),
        Ev.closeBrowser ((env.act (s1.acts + 1)).isNone)] := by
  rcases h1 : env.act s1.acts with _ | m2 <;>
    rcases h2 : env.act (s1.acts + 1) with _ | m3 <;>
      simp [runFinish, h1, h2]

/-- After a failing body, any exception propagating out of `run()` was raised
by the diagnostic screenshot or by `close`, never by a driver call of the
body itself. -/
lemma runFinish_exn_fail (e : String) (env : Env) (s1 : St) (i : Nat)
    (m : String) (j : Nat) (hj : j < s1.acts) :
    (runFinish e env (s1, some (i, m))).exn.map Prod.fst ≠ some j := by
  rcases h1 : env.act s1.acts with _ | m2 <;>
    rcases h2 : env.act (s1.acts + 1) with _ | m3 <;>
      simp [runFinish, h1, h2] <;> omega

/-- Claim C1: in either script, when session acquisition succeeded and some
step inside the `try` body raises, the remaining body steps are skipped (the
trace continues directly with the handler), the error message is printed, the
diagnostic screenshot is attempted (best-effort: its own success flag is
whatever the driver reports), the script proceeds to teardown
(`browser.close()` is attempted), and the step's exception itself never
propagates out of `run()`. -/
theorem c1_step_failure_contained (sc : Script) (env : Env) (i : Nat)
    (msg : String) (h0 : env.act 0 = none) (h1 : env.act 1 = none)
    (hb : (runBody env sc.body init0).2 = some (i, msg)) :
    (run sc env).tr =
      ((runBody env sc.body init0).1).tr ++
        [Ev.print ("Error: " ++ msg),
         Ev.screenshot sc.errShot ((env.act (i + 1)).isNone),
         Ev.closeBrowser ((env.act (i + 2)).isNone)] ∧
    (run sc env).exn.map Prod.fst ≠ some i := by
  rcases hpr : runBody env sc.body init0 with ⟨s1, r⟩
  rw [hpr] at hb
  simp only at hb
  subst hb
  have hfa := runBody_fail_acts sc.body env init0 s1 i msg hpr
  have hrun : run sc env = runFinish sc.errShot env (s1, some (i, msg)) := by
    simp [run, runW, h0, h1, hpr]
  rw [hrun]
  constructor
  · rw [runFinish_tr_fail, hfa.2.1]
  · exact runFinish_exn_fail sc.errShot env s1 i msg i
      (by obtain ⟨-, h2, -⟩ := hfa; omega)

/-- The oracle of the C1 witness run: the sixth driver call (the
`dashboard_tab.png` screenshot of `verify_dashboard.py`) raises with message
`boom`; everything else succeeds and every probe reports false. -/
def c1Env : Env :=
  { act := fun n => if n == 5 then some "boom" else none,
    probe := fun _ => false }

/-- Witness for C1: a concrete `verify_dashboard` run whose sixth driver call
raises. -/
theorem c1_step_failure_contained_witness :
    (run Script.dashboard c1Env).tr =
      ((runBody c1Env Script.dashboard.body init0).1).tr ++
        [Ev.print ("Error: " ++ "boom"),
         Ev.screenshot Script.dashboard.errShot ((c1Env.act (5 + 1)).isNone),
         Ev.closeBrowser ((c1Env.act (5 + 2)).isNone)] ∧
    (run Script.dashboard c1Env).exn.map Prod.fst ≠ some 5 :=
  c1_step_failure_contained Script.dashboard c1Env 5 "boom" rfl rfl (by decide)

/-- The oracle of the C2 counterexample run: `browser.new_page()` (driver
call 1) raises; everything else would succeed. -/
def c2Env : Env :=
  { act := fun n => if n == 1 then some "new page failed" else none,
    probe := fun _ => false }

/-- Counterexample to claim C2 as stated: on the exit path where session
acquisition fails (here `browser.new_page()` raises), the run of
`verify_dashboard` terminates with `browser.close()` invoked zero times, not
exactly once. -/
theorem c2_close_counterexample :
    (run Script.dashboard c2Env).exn = some (1, "new page failed") ∧
    closedCount (run Script.dashboard c2Env).tr = 0 := by
  decide

/-- Claim C2 (amended): on every exit path on which the browser launch and
the page creation both succeeded — normal completion, failure of any body
step, failure of the diagnostic screenshot, failure of `close` itself — the
browser session is closed exactly once; but when launch or page creation
raises, `browser.close()` is never invoked. -/
theorem c2_close_exactly_once (sc : Script) (env : Env) :
    (env.act 0 = none → env.act 1 = none →
      closedCount (run sc env).tr = 1) ∧
    (env.act 0 ≠ none ∨ env.act 1 ≠ none →
      closedCount (run sc env).tr = 0) := by
  constructor
  · intro h0 h1
    have hrun : run sc env = runFinish sc.errShot env (runBody env sc.body init0) := by
      simp [run, runW, h0, h1]
    rw [hrun, runFinish_closed, runBody_closed]
    rfl
  · intro h
    rcases h0 : env.act 0 with _ | m0
    · rcases h1 : env.act 1 with _ | m1
      · rcases h with h | h
        · exact absurd h0 h
        · exact absurd h1 h
      · simp [run, runW, h0, h1, closedCount, isClose]
    · simp [run, runW, h0, closedCount, isClose]

/-- The oracle of a fully successful run: every driver call succeeds and
every probe reports false. -/
def envAllOk : Env := { act := fun _ => none, probe := fun _ => false }

/-- Witness for the amended C2: a fully successful `verify_dashboard` run
closes the browser exactly once, and the acquisition-failure run of
`verify_collaborative` closes it zero times. -/
theorem c2_close_exactly_once_witness :
    closedCount (run Script.dashboard envAllOk).tr = 1 ∧
    closedCount (run Script.collaborative c2Env).tr = 0 :=
  ⟨(c2_close_exactly_once Script.dashboard envAllOk).1 rfl rfl,
   (c2_close_exactly_once Script.collaborative c2Env).2 (Or.inr (by decide))⟩

/-- Claim C8: in either script, when acquiring the browser session fails —
the browser launch (driver call 0) or the page creation (driver call 1)
raises — that exception propagates out of the whole `run()` call, uncaught
by the `try` body's catch-all handler, and the diagnostic screenshot is
never attempted. -/
theorem c8_acquisition_failure_fatal (sc : Script) (env : Env) (m : String) :
    (env.act 0 = some m →
      (run sc env).exn = some (0, m) ∧
      Ev.screenshot sc.errShot true ∉ (run sc env).tr ∧
      Ev.screenshot sc.errShot false ∉ (run sc env).tr) ∧
    (env.act 0 = none → env.act 1 = some m →
      (run sc env).exn = some (1, m) ∧
      Ev.screenshot sc.errShot true ∉ (run sc env).tr ∧
      Ev.screenshot sc.errShot false ∉ (run sc env).tr) := by
  constructor
  · intro h0
    simp [run, runW, h0]
  · intro h0 h1
    simp [run, runW, h0, h1]

/-- The oracle of the C8 witness runs, first flavour: the browser launch
itself raises. -/
def c8Env : Env :=
  { act := fun _ => some "launch failed", probe := fun _ => false }

/-- The oracle of the C8 witness runs, second flavour: the launch succeeds
and `browser.new_page()` (driver call 1) raises. -/
def c8EnvB : Env :=
  { act := fun n => if n == 1 then some "no page" else none,
    probe := fun _ => false }

/-- Witness for C8: a run whose browser launch raises, and a run whose page
creation raises; in both the exception escapes `run()` and no diagnostic
screenshot is attempted. -/
theorem c8_acquisition_failure_fatal_witness :
    ((run Script.dashboard c8Env).exn = some (0, "launch failed") ∧
      Ev.screenshot Script.dashboard.errShot true ∉ (run Script.dashboard c8Env).tr ∧
      Ev.screenshot Script.dashboard.errShot false ∉ (run Script.dashboard c8Env).tr) ∧
    ((run Script.collaborative c8EnvB).exn = some (1, "no page") ∧
      Ev.screenshot Script.collaborative.errShot true ∉ (run Script.collaborative c8EnvB).tr ∧
      Ev.screenshot Script.collaborative.errShot false ∉ (run Script.collaborative c8EnvB).tr) :=
  ⟨(c8_acquisition_failure_fatal Script.dashboard c8Env "launch failed").1 rfl,
   (c8_acquisition_failure_fatal Script.collaborative c8EnvB "no page").2 rfl rfl⟩

/-- Claim C4: in either script, a run in which session acquisition succeeded
and the whole `try` body completed without an exception writes exactly the
script's enumerated screenshot files, in the script's fixed step order, and
no diagnostic `error_state*.png`. -/
theorem c4_success_artifacts (sc : Script) (env : Env)
    (h0 : env.act 0 = none) (h1 : env.act 1 = none)
    (hb : (runBody env sc.body init0).2 = none) :
    producedShots (run sc env).tr = expectedShots sc ∧
    sc.errShot ∉ producedShots (run sc env).tr := by
  rcases hpr : runBody env sc.body init0 with ⟨s1, r⟩
  rw [hpr] at hb
  simp only at hb
  subst hb
  have hs := runBody_success_shots sc.body env init0 s1 hpr
  have hrun : run sc env = runFinish sc.errShot env (s1, none) := by
    simp [run, runW, h0, h1, hpr]
  rw [hrun, runFinish_produced_ok, hs.1]
  constructor
  · cases sc <;> decide
  · cases sc <;> decide

/-- Witness for C4: the fully successful `verify_dashboard` run writes
exactly the six enumerated screenshots and no `error_state.png`. -/
theorem c4_success_artifacts_witness :
    producedShots (run Script.dashboard envAllOk).tr = expectedShots Script.dashboard ∧
    Script.dashboard.errShot ∉ producedShots (run Script.dashboard envAllOk).tr :=
  c4_success_artifacts Script.dashboard envAllOk rfl rfl (by decide)

/-- The oracle of the C3 counterexample run: navigation (driver call 2)
raises because the dashboard is not running, and the diagnostic screenshot
(driver call 3) itself also raises. -/
def c3Env : Env :=
  { act := fun n =>
      if n == 2 then some "net::ERR_CONNECTION_REFUSED"
      else if n == 3 then some "browser has been closed" else none,
    probe := fun _ => false }

/-- Counterexample to claim C3 as stated: a `verify_dashboard` run in which a
step fails (navigation to the dashboard raises) but the best-effort
diagnostic screenshot itself also raises terminates with no artifact at all —
in particular no `error_state.png` — contradicting that every failing run
produces the diagnostic artifact. -/
theorem c3_counterexample :
    Ev.print ("Error: " ++ "net::ERR_CONNECTION_REFUSED") ∈
      (run Script.dashboard c3Env).tr ∧
    producedShots (run Script.dashboard c3Env).tr = [] := by
  decide

/-- Running the first two statements of either body (the banner print and
`page.goto`) when the `goto` call raises. -/
lemma runBody_goto_fail (env : Env) (t u : String) (rest : List Instr)
    (s : St) (m : String) (hA : env.act s.acts = some m) :
    runBody env (.iprint t :: .igoto u :: rest) s =
      ({ s with acts := s.acts + 1,
                tr := s.tr ++ [Ev.print t, Ev.goto u false] },
       some (s.acts, m)) := by
  simp [runBody, hA]

/-- Claim C3 (amended): in either script, when session acquisition succeeded
and a body step fails, no artifact beyond those already written before the
failure point is produced except the attempted diagnostic screenshot: if the
diagnostic screenshot call succeeds the artifact set is extended by exactly
`error_state*.png`, and if it raises nothing more is produced; moreover when
the failing step is the initial navigation (the dashboard is not running),
nothing was produced before the failure point, so the diagnostic screenshot
is the only artifact of the run. -/
theorem c3_failure_artifacts (sc : Script) (env : Env) (i : Nat)
    (msg : String) (h0 : env.act 0 = none) (h1 : env.act 1 = none)
    (hb : (runBody env sc.body init0).2 = some (i, msg)) :
    ((env.act (i + 1)).isNone = true →
      producedShots (run sc env).tr =
        producedShots ((runBody env sc.body init0).1).tr ++ [sc.errShot]) ∧
    ((env.act (i + 1)).isNone = false →
      producedShots (run sc env).tr =
        producedShots ((runBody env sc.body init0).1).tr) ∧
    (env.act 2 ≠ none →
      producedShots ((runBody env sc.body init0).1).tr = []) := by
  rcases hpr : runBody env sc.body init0 with ⟨s1, r⟩
  rw [hpr] at hb
  simp only at hb
  subst hb
  have hfa := runBody_fail_acts sc.body env init0 s1 i msg hpr
  have hrun : run sc env = runFinish sc.errShot env (s1, some (i, msg)) := by
    simp [run, runW, h0, h1, hpr]
  refine ⟨?_, ?_, ?_⟩
  · intro hd
    rw [hrun, runFinish_produced_fail, hfa.2.1, hd]
    simp
  · intro hd
    rw [hrun, runFinish_produced_fail, hfa.2.1, hd]
    simp
  · intro h2
    rcases hA : env.act 2 with _ | m2
    · exact absurd hA h2
    · have hsplit : sc.body = Instr.iprint "Navigating to Dashboard..." ::
          Instr.igoto "http://localhost:3847/dashboard" :: (sc.body.drop 2) := by
        cases sc <;> rfl
      rw [hsplit, runBody_goto_fail env _ _ _ _ m2 hA] at hpr
      simp only [Prod.mk.injEq, Option.some.injEq] at hpr
      obtain ⟨hs, -⟩ := hpr
      rw [← hs]
      rfl

/-- The oracle of the C3 witness run: only navigation (driver call 2) raises;
in particular the diagnostic screenshot succeeds. -/
def c3EnvW : Env :=
  { act := fun n => if n == 2 then some "ERR_CONNECTION_REFUSED" else none,
    probe := fun _ => false }

/-- Witness for the amended C3: with the dashboard not running at
`localhost:3847` (navigation raises, everything else behaves), the diagnostic
screenshot `error_state.png` is the only artifact the `verify_dashboard` run
produces. -/
theorem c3_failure_artifacts_witness :
    producedShots (run Script.dashboard c3EnvW).tr = ["error_state.png"] := by
  have h := c3_failure_artifacts Script.dashboard c3EnvW 2
    "ERR_CONNECTION_REFUSED" rfl rfl (by decide)
  have h1 := h.1 (by decide)
  have h3 := h.2.2 (by decide)
  rw [h1, h3]
  rfl

/-- The handler/`finally` part performs the same driver steps and propagates
the same exception under two oracles assigning equal outcomes to driver
calls. -/
lemma runFinish_steps_congr (e : String) (env1 env2 : Env) (t1 t2 : St)
    (r : Option Exn) (hAct : ∀ n, env1.act n = env2.act n)
    (hacts : t1.acts = t2.acts) (hsteps : stepsOf t1.tr = stepsOf t2.tr) :
    stepsOf (runFinish e env1 (t1, r)).tr =
      stepsOf (runFinish e env2 (t2, r)).tr ∧
    (runFinish e env1 (t1, r)).exn = (runFinish e env2 (t2, r)).exn := by
  have hE1 : env1.act t2.acts = env2.act t2.acts := hAct _
  have hE2 : env1.act (t2.acts + 1) = env2.act (t2.acts + 1) := hAct _
  rcases r with _ | ⟨i, m⟩
  · rcases hA1 : env2.act t2.acts with _ | m2 <;> rw [hA1] at hE1 <;>
      simp [runFinish, hE1, hA1, stepsOf_append, stepsOf_cons, stepsOf_nil,
        isStep, hsteps, hacts]
  · rcases hA1 : env2.act t2.acts with _ | m2 <;> rw [hA1] at hE1 <;>
      rcases hA2 : env2.act (t2.acts + 1) with _ | m3 <;> rw [hA2] at hE2 <;>
        simp [runFinish, hE1, hE2, hA1, hA2, stepsOf_append, stepsOf_cons,
          stepsOf_nil, isStep, hsteps, hacts]

/-- A whole run of either script performs the same driver steps and
propagates the same exception under two oracles assigning equal outcomes to
driver calls, whatever each oracle answers for the probes. -/
lemma run_steps_congr (sc : Script) (env1 env2 : Env)
    (hA : env1.act = env2.act) :
    stepsOf (run sc env1).tr = stepsOf (run sc env2).tr ∧
    (run sc env1).exn = (run sc env2).exn := by
  have hAct : ∀ n, env1.act n = env2.act n := fun n => by rw [hA]
  rcases h0 : env2.act 0 with _ | m0
  · rcases h1 : env2.act 1 with _ | m1
    · have h0' : env1.act 0 = none := (hAct 0).trans h0
      have h1' : env1.act 1 = none := (hAct 1).trans h1
      have hc := runBody_steps_congr sc.body env1 env2 init0 init0 hA rfl rfl
      rcases hp1 : runBody env1 sc.body init0 with ⟨t1, r1⟩
      rcases hp2 : runBody env2 sc.body init0 with ⟨t2, r2⟩
      rw [hp1, hp2] at hc
      simp only at hc
      obtain ⟨hsteps, hacts, hexn⟩ := hc
      subst hexn
      have e1 : run sc env1 = runFinish sc.errShot env1 (t1, r1) := by
        simp [run, runW, h0', h1', hp1]
      have e2 : run sc env2 = runFinish sc.errShot env2 (t2, r1) := by
        simp [run, runW, h0, h1, hp2]
      rw [e1, e2]
      exact runFinish_steps_congr _ env1 env2 t1 t2 r1 hAct hacts hsteps
    · have h1' : env1.act 1 = some m1 := (hAct 1).trans h1
      have h0' : env1.act 0 = none := (hAct 0).trans h0
      simp [run, runW, h0, h1, h0', h1']
  · have h0' : env1.act 0 = some m0 := (hAct 0).trans h0
    simp [run, runW, h0, h0']

/-- Claim C6: two runs of `verify_dashboard` whose oracles agree on every
driver-call outcome but may differ arbitrarily in the boolean results of the
visibility probes perform exactly the same sequence of driver steps
(navigations, waits, clicks, screenshots with their success flags, close) and
propagate the same exception: probe results only influence console output,
never control flow. -/
theorem c6_probe_noninterference (env1 env2 : Env)
    (hA : env1.act = env2.act) :
    stepsOf (run Script.dashboard env1).tr =
      stepsOf (run Script.dashboard env2).tr ∧
    (run Script.dashboard env1).exn = (run Script.dashboard env2).exn :=
  run_steps_congr Script.dashboard env1 env2 hA

/-- The oracle of the second C6 witness run: every driver call succeeds and
every probe reports true (the first witness run is the all-false
`envAllOk`). -/
def c6Env : Env := { act := fun _ => none, probe := fun _ => true }

/-- Witness for C6: the all-probes-false and all-probes-true successful runs
of `verify_dashboard` perform identical driver steps and both propagate no
exception. -/
theorem c6_probe_noninterference_witness :
    stepsOf (run Script.dashboard envAllOk).tr =
      stepsOf (run Script.dashboard c6Env).tr ∧
    (run Script.dashboard envAllOk).exn = (run Script.dashboard c6Env).exn :=
  c6_probe_noninterference envAllOk c6Env rfl

/-- Counterexample to claim C7 as stated: in `verify_dashboard` not every UI
interaction is gated by both a selector wait and a fixed sleep before the
next screenshot — the tab and modal clicks are followed only by a sleep, with
no `wait_for_selector` between the click and the screenshot. -/
theorem c7_counterexample : gatedBoth dashBody = false := by rfl

/-- Claim C7 (amended): in `verify_collaborative` every UI interaction is
gated by both a selector wait and a fixed sleep before the next screenshot;
in `verify_dashboard` every UI interaction is gated by at least a fixed sleep
before the next screenshot, and the initial navigation (up to the first
screenshot) is additionally gated by a selector wait, but the later clicks
have no selector wait. -/
theorem c7_amended_gating :
    gatedBoth collabBody = true ∧
    gatedSleep dashBody = true ∧
    gatedBoth (dashBody.take 5) = true :=
  ⟨rfl, rfl, rfl⟩

/-- When the first `k` instructions of `verify_dashboard` run to completion
reaching state `mid`, the trace of the whole run extends `mid.tr`. -/
lemma run_tr_prefix (env : Env) (k : Nat) (mid : St)
    (h0 : env.act 0 = none) (h1 : env.act 1 = none)
    (hpre : runBody env (dashBody.take k) init0 = (mid, none)) :
    ∃ t, (run Script.dashboard env).tr = mid.tr ++ t := by
  have hsplit : dashBody = dashBody.take k ++ dashBody.drop k :=
    (List.take_append_drop k dashBody).symm
  have happ := runBody_append (dashBody.take k) (dashBody.drop k) env init0
  rw [hpre] at happ
  simp only at happ
  obtain ⟨t, ht⟩ := runBody_tr_ext (dashBody.drop k) env mid
  obtain ⟨u, hu⟩ := runFinish_tr_ext Script.dashboard.errShot env
    (runBody env (dashBody.drop k) mid)
  have hrun : run Script.dashboard env =
      runFinish Script.dashboard.errShot env
        (runBody env Script.dashboard.body init0) := by
    simp [run, runW, h0, h1]
  refine ⟨t ++ u, ?_⟩
  rw [hrun, show Script.dashboard.body = dashBody from rfl, hsplit, happ, hu,
    ht, List.append_assoc]

/-- The events of a `verify_dashboard` run up to (and including) the banner
print before the Debate History click, in the no-active-sessions scenario:
grid probe false, empty-state text probe true. -/
def c5Pre : List Ev :=
  [Ev.launch true, Ev.newPage true,
   Ev.print "Navigating to Dashboard...",
   Ev.goto "http://localhost:3847/dashboard" true,
   Ev.waitFor ".app" true,
   Ev.sleepTenths 20,
   Ev.screenshot "dashboard_debug.png" true,
   Ev.print "Debug screenshot saved.",
   Ev.probe ".sessions-grid" false,
   Ev.print "Sessions grid is NOT visible.",
   Ev.probeText "No sessions active" true,
   Ev.print "Empty state text found.",
   Ev.screenshot "dashboard_tab.png" true,
   Ev.print "Dashboard tab screenshot saved.",
   Ev.print "Navigating to Debate History..."]

/-- The oracle of the C5 counterexample run: the page loads and the probes
report no active sessions, but the `dashboard_tab.png` screenshot call
(driver call 5) itself raises. -/
def c5Env : Env :=
  { act := fun n => if n == 5 then some "screenshot failed" else none,
    probe := fun n => n == 1 }

/-- Counterexample to claim C5 as stated: a `verify_dashboard` run in which
the dashboard page loads with no active sessions (grid probe false,
empty-state text probe true) but the `dashboard_tab.png` screenshot call
raises does not produce `dashboard_tab.png`. -/
theorem c5_counterexample :
    c5Env.probe 0 = false ∧ c5Env.probe 1 = true ∧
    "dashboard_tab.png" ∉ producedShots (run Script.dashboard c5Env).tr := by
  decide

/-- Claim C5 (amended): in every `verify_dashboard` run in which navigation,
the `.app` wait and the two screenshot calls up to `dashboard_tab.png` all
succeed, the grid probe reports not visible and the empty-state text probe
reports visible, the trace starts with exactly the events of `c5Pre`: both
`dashboard_debug.png` and `dashboard_tab.png` are produced, and the lines
`Sessions grid is NOT visible.` and `Empty state text found.` are printed in
the part of the trace that precedes any click on the Debate History tab. -/
theorem c5_empty_state (env : Env)
    (hA : ∀ n, n ≤ 5 → env.act n = none)
    (hp0 : env.probe 0 = false) (hp1 : env.probe 1 = true) :
    (run Script.dashboard env).tr.take 15 = c5Pre ∧
    "dashboard_debug.png" ∈ producedShots (run Script.dashboard env).tr ∧
    "dashboard_tab.png" ∈ producedShots (run Script.dashboard env).tr ∧
    Ev.print "Sessions grid is NOT visible." ∈ c5Pre ∧
    Ev.print "Empty state text found." ∈ c5Pre ∧
    Ev.click ".tab:text(\x27Debate History\x27)" true ∉ c5Pre ∧
    Ev.click ".tab:text(\x27Debate History\x27)" false ∉ c5Pre := by
  have e2 : env.act 2 = none := hA 2 (by omega)
  have e3 : env.act 3 = none := hA 3 (by omega)
  have e4 : env.act 4 = none := hA 4 (by omega)
  have e5 : env.act 5 = none := hA 5 (by omega)
  have hpre : runBody env (dashBody.take 11) init0 =
      ({ acts := 6, probes := 2, tr := c5Pre }, none) := by
    simp [dashBody, init0, c5Pre, runBody, e2, e3, e4, e5, hp0, hp1]
  obtain ⟨t, htr⟩ := run_tr_prefix env 11 ⟨6, 2, c5Pre⟩
    (hA 0 (by omega)) (hA 1 (by omega)) hpre
  simp only at htr
  refine ⟨?_, ?_, ?_, by decide, by decide, by decide, by decide⟩
  · rw [htr, show (15 : Nat) = c5Pre.length from rfl]
    exact List.take_left c5Pre t
  · rw [htr, producedShots_append]
    exact List.mem_append_left _ (by decide)
  · rw [htr, producedShots_append]
    exact List.mem_append_left _ (by decide)

/-- The oracle of the C5 witness run: every driver call succeeds, the grid
probe reports false and the empty-state text probe reports true. -/
def c5EnvW : Env := { act := fun _ => none, probe := fun n => n == 1 }

/-- Witness for the amended C5 at a concrete no-active-sessions run. -/
theorem c5_empty_state_witness :
    (run Script.dashboard c5EnvW).tr.take 15 = c5Pre ∧
    "dashboard_debug.png" ∈ producedShots (run Script.dashboard c5EnvW).tr ∧
    "dashboard_tab.png" ∈ producedShots (run Script.dashboard c5EnvW).tr ∧
    Ev.print "Sessions grid is NOT visible." ∈ c5Pre ∧
    Ev.print "Empty state text found." ∈ c5Pre ∧
    Ev.click ".tab:text(\x27Debate History\x27)" true ∉ c5Pre ∧
    Ev.click ".tab:text(\x27Debate History\x27)" false ∉ c5Pre :=
  c5_empty_state c5EnvW (fun _ _ => rfl) rfl rfl

/-- The events of a `verify_dashboard` run up to the debug screenshot, before
the two visibility probes. -/
def c10Pre : List Ev :=
  [Ev.launch true, Ev.newPage true,
   Ev.print "Navigating to Dashboard...",
   Ev.goto "http://localhost:3847/dashboard" true,
   Ev.waitFor ".app" true,
   Ev.sleepTenths 20,
   Ev.screenshot "dashboard_debug.png" true,
   Ev.print "Debug screenshot saved."]

/-- The events of a `verify_dashboard` run from the start through the
`dashboard_tab.png` screenshot, as a function of the two probe answers: the
grid probe prints exactly one of its two lines, the empty-state text probe
prints its line exactly when it reports visible and prints nothing otherwise
(there is no else branch), after which the walk proceeds directly to the next
screenshot. -/
def c10Mid (b0 b1 : Bool) : List Ev :=
  c10Pre ++
  (if b0 then
    [Ev.probe ".sessions-grid" true, Ev.print "Sessions grid is visible."]
   else
    [Ev.probe ".sessions-grid" false,
     Ev.print "Sessions grid is NOT visible."]) ++
  ((if b1 then
    [Ev.probeText "No sessions active" true,
     Ev.print "Empty state text found."]
   else [Ev.probeText "No sessions active" false]) ++
  [Ev.screenshot "dashboard_tab.png" true])

/-- Claim C10: in every `verify_dashboard` run that reaches the probes (the
calls up to the `dashboard_tab.png` screenshot succeed), the trace begins
with exactly `c10Mid (env.probe 0) (env.probe 1)`: the `Empty state text
found.` line is printed at the text probe iff that probe reports visible,
and nothing at all is printed there otherwise, while the grid probe always
prints exactly one of its two lines; and a second run agreeing on every
driver-call outcome and on the grid probe but differing in the text probe
performs the identical driver steps. -/
theorem c10_probe_logging (env env2 : Env)
    (hA : ∀ n, n ≤ 5 → env.act n = none)
    (hAct2 : env2.act = env.act) (_hp : env2.probe 0 = env.probe 0) :
    (run Script.dashboard env).tr.take
        ((c10Mid (env.probe 0) (env.probe 1)).length) =
      c10Mid (env.probe 0) (env.probe 1) ∧
    stepsOf (run Script.dashboard env2).tr =
      stepsOf (run Script.dashboard env).tr := by
  have e2 : env.act 2 = none := hA 2 (by omega)
  have e3 : env.act 3 = none := hA 3 (by omega)
  have e4 : env.act 4 = none := hA 4 (by omega)
  have e5 : env.act 5 = none := hA 5 (by omega)
  have h0 : env.act 0 = none := hA 0 (by omega)
  have h1 : env.act 1 = none := hA 1 (by omega)
  refine ⟨?_, (run_steps_congr Script.dashboard env2 env hAct2).1⟩
  rcases hb0 : env.probe 0 <;> rcases hb1 : env.probe 1
  · have hpre : runBody env (dashBody.take 9) init0 =
        ({ acts := 6, probes := 2, tr := c10Mid false false }, none) := by
      simp [dashBody, init0, c10Mid, c10Pre, runBody, e2, e3, e4, e5, hb0, hb1]
    obtain ⟨t, htr⟩ := run_tr_prefix env 9 ⟨6, 2, c10Mid false false⟩ h0 h1 hpre
    simp only at htr
    rw [htr]
    exact List.take_left _ t
  · have hpre : runBody env (dashBody.take 9) init0 =
        ({ acts := 6, probes := 2, tr := c10Mid false true }, none) := by
      simp [dashBody, init0, c10Mid, c10Pre, runBody, e2, e3, e4, e5, hb0, hb1]
    obtain ⟨t, htr⟩ := run_tr_prefix env 9 ⟨6, 2, c10Mid false true⟩ h0 h1 hpre
    simp only at htr
    rw [htr]
    exact List.take_left _ t
  · have hpre : runBody env (dashBody.take 9) init0 =
        ({ acts := 6, probes := 2, tr := c10Mid true false }, none) := by
      simp [dashBody, init0, c10Mid, c10Pre, runBody, e2, e3, e4, e5, hb0, hb1]
    obtain ⟨t, htr⟩ := run_tr_prefix env 9 ⟨6, 2, c10Mid true false⟩ h0 h1 hpre
    simp only at htr
    rw [htr]
    exact List.take_left _ t
  · have hpre : runBody env (dashBody.take 9) init0 =
        ({ acts := 6, probes := 2, tr := c10Mid true true }, none) := by
      simp [dashBody, init0, c10Mid, c10Pre, runBody, e2, e3, e4, e5, hb0, hb1]
    obtain ⟨t, htr⟩ := run_tr_prefix env 9 ⟨6, 2, c10Mid true true⟩ h0 h1 hpre
    simp only at htr
    rw [htr]
    exact List.take_left _ t

/-- The oracle of the first C10 witness run: every call succeeds, both
probes report false. -/
def c10Env : Env := { act := fun _ => none, probe := fun _ => false }

/-- The oracle of the second C10 witness run: every call succeeds, the grid
probe reports false and the text probe reports true. -/
def c10EnvB : Env := { act := fun _ => none, probe := fun n => n == 1 }

/-- Witness for C10: two concrete runs differing only in the text probe. -/
theorem c10_probe_logging_witness :
    (run Script.dashboard c10Env).tr.take
        ((c10Mid (c10Env.probe 0) (c10Env.probe 1)).length) =
      c10Mid (c10Env.probe 0) (c10Env.probe 1) ∧
    stepsOf (run Script.dashboard c10EnvB).tr =
      stepsOf (run Script.dashboard c10Env).tr :=
  c10_probe_logging c10Env c10EnvB (fun _ _ => rfl) rfl rfl

/-- Cutting `verify_dashboard` at any fallible instruction other than the
final `.modal-close` click (the fallible call number 15) leaves at least one
of the six expected screenshots unnamed by the prefix, whether or not the
diagnostic screenshot is added. -/
lemma c9_dash_missing : ∀ k, k < 32 →
    fallible (dashBody.getD k (Instr.iprint "")) = true →
    2 + countFallible (dashBody.take k) = 15 ∨
    (((expectedShots Script.dashboard).all
        (fun p => (shotsOf (dashBody.take k) ++
          [Script.dashboard.errShot]).contains p)) = false ∧
     ((expectedShots Script.dashboard).all
        (fun p => (shotsOf (dashBody.take k)).contains p)) = false) := by
  decide

/-- Cutting `verify_collaborative` at any fallible instruction leaves at
least one of its three expected screenshots unnamed by the prefix, whether or
not the diagnostic screenshot is added. -/
lemma c9_collab_missing : ∀ k, k < 22 →
    fallible (collabBody.getD k (Instr.iprint "")) = true →
    ((expectedShots Script.collaborative).all
        (fun p => (shotsOf (collabBody.take k) ++
          [Script.collaborative.errShot]).contains p)) = false ∧
    ((expectedShots Script.collaborative).all
        (fun p => (shotsOf (collabBody.take k)).contains p)) = false := by
  decide

/-- The oracle of the C9 counterexample run: the final `.modal-close` click
of `verify_dashboard` (driver call 15, after every screenshot) raises;
everything else succeeds. -/
def c9Env : Env :=
  { act := fun n => if n == 15 then some "element not found" else none,
    probe := fun _ => false }

/-- Counterexample to claim C9 as stated: a `verify_dashboard` run that
fails at the final `.modal-close` click (after the last screenshot) is a
failed run — the handler prints the error — yet every one of the six
expected screenshots is present afterwards, so a failed run can leave the
complete expected artifact set on disk. -/
theorem c9_counterexample :
    Ev.print ("Error: " ++ "element not found") ∈
      (run Script.dashboard c9Env).tr ∧
    (expectedShots Script.dashboard).all
      (fun p => (producedShots (run Script.dashboard c9Env).tr).contains p) =
      true := by
  decide

/-- Claim C9 (amended): every failed run of `verify_collaborative` leaves at
least one of the three expected screenshots absent; a failed run of
`verify_dashboard` leaves at least one of the six expected screenshots
absent unless the failing step is the final `.modal-close` click (driver
call 15, the only fallible step after the last screenshot). -/
theorem c9_failed_run_missing (env : Env) (i : Nat) (m : String)
    (h0 : env.act 0 = none) (h1 : env.act 1 = none) :
    ((runBody env collabBody init0).2 = some (i, m) →
      (expectedShots Script.collaborative).all
        (fun p =>
          (producedShots (run Script.collaborative env).tr).contains p) =
        false) ∧
    ((runBody env dashBody init0).2 = some (i, m) → i ≠ 15 →
      (expectedShots Script.dashboard).all
        (fun p =>
          (producedShots (run Script.dashboard env).tr).contains p) =
        false) := by
  constructor
  · intro hb
    rcases hpr : runBody env collabBody init0 with ⟨s1, r⟩
    rw [hpr] at hb
    simp only at hb
    subst hb
    obtain ⟨k, hk, hfal, hprod, hcount⟩ :=
      runBody_fail_take collabBody env init0 s1 i m hpr
    have hfa := runBody_fail_acts collabBody env init0 s1 i m hpr
    have hrun : run Script.collaborative env =
        runFinish Script.collaborative.errShot env (s1, some (i, m)) := by
      simp [run, runW, Script.body, h0, h1, hpr]
    rw [hrun, runFinish_produced_fail, hprod,
      show producedShots init0.tr = [] from rfl, List.nil_append]
    obtain ⟨hmiss1, hmiss2⟩ := c9_collab_missing k hk hfal
    rcases hd : (env.act s1.acts).isNone
    · simpa [hd] using hmiss2
    · simpa [hd] using hmiss1
  · intro hb hi15
    rcases hpr : runBody env dashBody init0 with ⟨s1, r⟩
    rw [hpr] at hb
    simp only at hb
    subst hb
    obtain ⟨k, hk, hfal, hprod, hcount⟩ :=
      runBody_fail_take dashBody env init0 s1 i m hpr
    have hrun : run Script.dashboard env =
        runFinish Script.dashboard.errShot env (s1, some (i, m)) := by
      simp [run, runW, Script.body, h0, h1, hpr]
    rw [hrun, runFinish_produced_fail, hprod,
      show producedShots init0.tr = [] from rfl, List.nil_append]
    have hcount' : i = 2 + countFallible (dashBody.take k) := hcount
    rcases c9_dash_missing k hk hfal with h15 | ⟨hmiss1, hmiss2⟩
    · exact absurd (hcount'.trans h15) hi15
    · rcases hd : (env.act s1.acts).isNone
      · simpa [hd] using hmiss2
      · simpa [hd] using hmiss1

/-- The oracle of the first C9 witness run: in `verify_collaborative` the
final screenshot (driver call 13) raises. -/
def c9EnvA : Env :=
  { act := fun n => if n == 13 then some "timeout" else none,
    probe := fun _ => false }

/-- The oracle of the second C9 witness run: in `verify_dashboard` the
Debate History tab click (driver call 6) raises. -/
def c9EnvB : Env :=
  { act := fun n => if n == 6 then some "click failed" else none,
    probe := fun _ => false }

/-- Witness for the amended C9 at two concrete failing runs. -/
theorem c9_failed_run_missing_witness :
    (expectedShots Script.collaborative).all
      (fun p =>
        (producedShots (run Script.collaborative c9EnvA).tr).contains p) =
      false ∧
    (expectedShots Script.dashboard).all
      (fun p =>
        (producedShots (run Script.dashboard c9EnvB).tr).contains p) =
      false :=
  ⟨(c9_failed_run_missing c9EnvA 13 "timeout" rfl rfl).1 (by decide),
   (c9_failed_run_missing c9EnvB 6 "click failed" rfl rfl).2 (by decide)
     (by decide)⟩

end Autopilot
